import Mathlib

/-!
Verification of the mockup-generator pipeline (`create_mockups_2.py`).

The Python class `MockupGenerator` is shallowly embedded here:

* points are pairs of rationals (the source stores float32 coordinates);
* `_sort_corners` / `_calculate_inset_corners` become pure functions on a
  4-point record, with `np.argmin` / `np.argmax` modelled by their
  documented first-occurrence semantics;
* images are width/height plus a pixel function with three 8-bit channels
  kept as naturals;
* the OpenCV entry points that the class calls (`cv2.findContours`,
  `cv2.approxPolyDP`, `cv2.getPerspectiveTransform`, `cv2.warpPerspective`,
  `cv2.fillPoly`) are external to the repository: where a claim does not
  depend on their pixel-level output they are universally quantified
  parameters, and where a concrete instance is needed
  (`getPerspectiveTransform`, `warpPerspective`) they are modelled from the
  OpenCV documentation, as noted on each definition;
* Python control flow (exceptions raised by `max()` on an empty sequence,
  by the explicit `raise ValueError`, and by calling cv2 on `None` after a
  failed `cv2.imread`) is made explicit with an error type `PyErr`, and the
  mutation of `self.ordered_frame_corners` / `self.inset_corners` is
  explicit state passing on `GenState`.
-/

namespace Mockup

/-- A point, as one row of the float32 corner arrays: an (x, y) pair. -/
abbrev Point : Type := ℚ × ℚ

/-- The per-point quantity `frame_corners.sum(axis=1)`: x + y. -/
def ptSum (p : Point) : ℚ := p.1 + p.2

/-- The per-point quantity `np.diff(frame_corners, axis=1)`: y - x. -/
def ptDiff (p : Point) : ℚ := p.2 - p.1

/-- A 4-row corner array, in row order. -/
@[ext] structure Quad where
  p0 : Point
  p1 : Point
  p2 : Point
  p3 : Point
deriving DecidableEq

/-- The element of the 4-row array at `np.argmin` of the value `v`:
first-occurrence minimum, following numpy's argmin semantics. -/
def argminPt (v : Point → ℚ) (q : Quad) : Point :=
  if v q.p0 ≤ v q.p1 ∧ v q.p0 ≤ v q.p2 ∧ v q.p0 ≤ v q.p3 then q.p0
  else if v q.p1 ≤ v q.p2 ∧ v q.p1 ≤ v q.p3 then q.p1
  else if v q.p2 ≤ v q.p3 then q.p2
  else q.p3

/-- The element of the 4-row array at `np.argmax` of the value `v`:
first-occurrence maximum, following numpy's argmax semantics. -/
def argmaxPt (v : Point → ℚ) (q : Quad) : Point :=
  if v q.p1 ≤ v q.p0 ∧ v q.p2 ≤ v q.p0 ∧ v q.p3 ≤ v q.p0 then q.p0
  else if v q.p2 ≤ v q.p1 ∧ v q.p3 ≤ v q.p1 then q.p1
  else if v q.p3 ≤ v q.p2 then q.p2
  else q.p3

/-- `MockupGenerator._sort_corners`: the ordered corner array
`[argmin(sums), argmin(diffs), argmax(sums), argmax(diffs)]`. -/
def sortCorners (q : Quad) : Quad :=
  { p0 := argminPt ptSum q
    p1 := argminPt ptDiff q
    p2 := argmaxPt ptSum q
    p3 := argmaxPt ptDiff q }

/-- `np.mean(self.ordered_frame_corners, axis=0)`: the arithmetic mean of
the four rows, componentwise. -/
def centroid (q : Quad) : Point :=
  ((q.p0.1 + q.p1.1 + q.p2.1 + q.p3.1) / 4,
   (q.p0.2 + q.p1.2 + q.p2.2 + q.p3.2) / 4)

/-- One row of `corners * (1 - ratio) + mean * ratio` (numpy broadcasting
acts componentwise). -/
def insetPoint (c : Point) (r : ℚ) (p : Point) : Point :=
  (p.1 * (1 - r) + c.1 * r, p.2 * (1 - r) + c.2 * r)

/-- `MockupGenerator._calculate_inset_corners`:
`ordered_frame_corners * (1 - inset_ratio) + np.mean(ordered_frame_corners, axis=0) * inset_ratio`. -/
def calculateInsetCorners (q : Quad) (r : ℚ) : Quad :=
  { p0 := insetPoint (centroid q) r q.p0
    p1 := insetPoint (centroid q) r q.p1
    p2 := insetPoint (centroid q) r q.p2
    p3 := insetPoint (centroid q) r q.p3 }

/-- Scalar multiple of a point (used only to phrase the spec's formula). -/
def ptScale (a : ℚ) (p : Point) : Point := (a * p.1, a * p.2)

/-- Sum of two points (used only to phrase the spec's formula). -/
def ptAdd (p q : Point) : Point := (p.1 + q.1, p.2 + q.2)

/-- The arithmetic mean of the 4 ordered corners, as the spec words it. -/
def specCentroid (q : Quad) : Point :=
  ptScale (1 / 4) (ptAdd (ptAdd q.p0 q.p1) (ptAdd q.p2 q.p3))

/-- The spec's inset formula, stated in its own words:
`inset = corners*(1 - ratio) + centroid*ratio`, where centroid is the
arithmetic mean of the 4 ordered corners. -/
def specInsetCorners (q : Quad) (r : ℚ) : Quad :=
  { p0 := ptAdd (ptScale (1 - r) q.p0) (ptScale r (specCentroid q))
    p1 := ptAdd (ptScale (1 - r) q.p1) (ptScale r (specCentroid q))
    p2 := ptAdd (ptScale (1 - r) q.p2) (ptScale r (specCentroid q))
    p3 := ptAdd (ptScale (1 - r) q.p3) (ptScale r (specCentroid q)) }

/-- Membership of a point among the four rows of a corner array. -/
def QuadMem (x : Point) (q : Quad) : Prop :=
  x = q.p0 ∨ x = q.p1 ∨ x = q.p2 ∨ x = q.p3

/-- `v x` is at most `v` of every row of `q`. -/
def LeAll (v : Point → ℚ) (x : Point) (q : Quad) : Prop :=
  v x ≤ v q.p0 ∧ v x ≤ v q.p1 ∧ v x ≤ v q.p2 ∧ v x ≤ v q.p3

/-- `v x` is at least `v` of every row of `q`. -/
def GeAll (v : Point → ℚ) (x : Point) (q : Quad) : Prop :=
  v q.p0 ≤ v x ∧ v q.p1 ≤ v x ∧ v q.p2 ≤ v x ∧ v q.p3 ≤ v x

/-- The values `v` takes on the four rows of `q` are pairwise distinct. -/
def PairwiseNe (v : Point → ℚ) (q : Quad) : Prop :=
  v q.p0 ≠ v q.p1 ∧ v q.p0 ≠ v q.p2 ∧ v q.p0 ≠ v q.p3 ∧
  v q.p1 ≠ v q.p2 ∧ v q.p1 ≠ v q.p3 ∧ v q.p2 ≠ v q.p3

/-! ### Rasters and the compositor -/

/-- One 3-channel pixel; each channel is an 8-bit value kept as a natural. -/
abbrev Pixel : Type := ℕ × ℕ × ℕ

/-- A decoded raster: dimensions plus a pixel function. -/
structure Raster where
  width : ℕ
  height : ℕ
  px : ℕ → ℕ → Pixel

/-- A raster viewed only through its pixel function (masks are built and
consumed this way in `combine_images`). -/
abbrev Img : Type := ℕ → ℕ → Pixel

/-- `cv2.add` on one 8-bit channel: saturating addition. -/
def satAdd (a b : ℕ) : ℕ := min (a + b) 255

/-- `cv2.bitwise_not` on one 8-bit channel: complement within 8 bits. -/
def not8 (m : ℕ) : ℕ := 255 ^^^ m

/-- One channel of `combine_images`: the frame channel masked by
`bitwise_not` of the mask, `cv2.add`-ed to the warped channel masked by
the mask itself. -/
def combineC (f w m : ℕ) : ℕ := satAdd (f &&& not8 m) (w &&& m)

/-- `combine_images` on one 3-channel pixel, componentwise. -/
def combinePx (f w m : Pixel) : Pixel :=
  (combineC f.1 w.1 m.1, combineC f.2.1 w.2.1 m.2.1, combineC f.2.2 w.2.2 m.2.2)

/-- `MockupGenerator.combine_images`, given the rasterized mask:
`cv2.add(cv2.bitwise_and(frame, cv2.bitwise_not(mask)), cv2.bitwise_and(warped_photo, mask))`,
pixelwise on a canvas shaped like the frame. -/
def combineImages (frame : Raster) (mask : Img) (warped : Raster) : Raster :=
  { width := frame.width
    height := frame.height
    px := fun x y => combinePx (frame.px x y) (warped.px x y) (mask x y) }

/-- The mask built in `combine_images`: `np.zeros_like(self.frame)` filled
with `(255, 255, 255)` by `cv2.fillPoly` inside the inset polygon.  The
rasterization itself is cv2-internal, so it enters as a predicate
`rasterize` deciding which pixels the fill covers. -/
def mkMask (rasterize : Quad → ℕ → ℕ → Bool) (inset : Quad) : Img :=
  fun x y => if rasterize inset x y then (255, 255, 255) else (0, 0, 0)

/-! ### Errors, state, and the pipeline -/

/-- The Python exceptions the pipeline can surface: the `ValueError`s of
`detect_frame` (one raised explicitly, one raised by `max()` on an empty
sequence), cv2 assertion errors from calling OpenCV on a `None` returned
by a failed `cv2.imread`, and attribute errors from accessing `.shape` on
such a `None`. -/
inductive PyErr where
  | valueError (msg : String)
  | cvError (msg : String)
  | attributeError (msg : String)
deriving DecidableEq

/-- The mutable fields of a `MockupGenerator` instance.  `frame` and
`photo` hold the results of `cv2.imread`, which is `None` (here `none`)
when decoding fails.  The source field `inset_ratio` is `insetRatioVal`. -/
structure GenState where
  frame : Option Raster
  photo : Option Raster
  insetRatioVal : ℚ
  ordered_frame_corners : Option Quad
  inset_corners : Option Quad

/-- `MockupGenerator.__init__`: stores the two decoded rasters and the
ratio, leaves both corner fields unset, and performs no validation. -/
def initGen (frame photo : Option Raster) (r : ℚ) : GenState :=
  { frame := frame
    photo := photo
    insetRatioVal := r
    ordered_frame_corners := none
    inset_corners := none }

/-- A contour as returned by `cv2.findContours`: a list of points. -/
abbrev Contour : Type := List Point

/-- Python's `max(c :: cs, key=v)`: keeps the first element attaining the
maximum (a later element replaces the current one only when strictly
greater). -/
def pyMax (v : Contour → ℚ) (c : Contour) (cs : List Contour) : Contour :=
  cs.foldl (fun acc x => if v acc < v x then x else acc) c

/-- `max(contours, key=...)` on a possibly-empty list (the empty case is
where Python's `max` raises; callers handle it separately). -/
def pyMaxList (v : Contour → ℚ) : List Contour → Contour
  | [] => []
  | c :: cs => pyMax v c cs

/-- The state mutation performed by `_sort_corners` followed by the
chained call to `_calculate_inset_corners`: sets
`ordered_frame_corners` and `inset_corners`. -/
def sortCornersState (st : GenState) (frame_corners : Quad) : GenState :=
  let ordered := sortCorners frame_corners
  { st with
    ordered_frame_corners := some ordered
    inset_corners := some (calculateInsetCorners ordered st.insetRatioVal) }

/-- `MockupGenerator.detect_frame`.  The cv2 chain grayscale → Canny →
`findContours` is external and enters as `contoursOf`; `cv2.contourArea`
enters as `area` and `cv2.approxPolyDP` (with its 2%-perimeter epsilon)
as `approxPolyDP`.  Control flow from the source:
a `None` frame makes `cv2.cvtColor` raise; an empty contour list makes
Python's `max` raise; a simplified polygon with a vertex count other
than 4 hits the explicit `raise ValueError`; otherwise `_sort_corners`
runs and sets both corner fields.  On every error the instance fields
are left untouched. -/
def detectFrame (st : GenState) (contoursOf : Raster → List Contour)
    (area : Contour → ℚ) (approxPolyDP : Contour → List Point) :
    Option PyErr × GenState :=
  match st.frame with
  | none => (some (.cvError "cvtColor: Assertion failed: !_src.empty()"), st)
  | some f =>
    match contoursOf f with
    | [] => (some (.valueError "max() arg is an empty sequence"), st)
    | c :: cs =>
      let frame_contour := pyMax area c cs
      match approxPolyDP frame_contour with
      | [a, b, c2, d] => (none, sortCornersState st ⟨a, b, c2, d⟩)
      | _ => (some (.valueError "Frame detection failed: Expected a quadrilateral."), st)

/-- A 3-row vector of rationals. -/
abbrev Vec3 : Type := ℚ × ℚ × ℚ

/-- A 3x3 matrix, row by row. -/
structure Mat3 where
  r0 : Vec3
  r1 : Vec3
  r2 : Vec3
deriving DecidableEq

/-- Dot product of two coefficient lists. -/
def dotQ (xs ys : List ℚ) : ℚ := (List.zipWith (fun a b => a * b) xs ys).sum

/-- Finds the first row whose leading coefficient is nonzero and returns
it together with the remaining rows (a pivot search for exact Gaussian
elimination; any nonzero pivot choice detects singularity exactly). -/
def pivotSplit : List (List ℚ) → Option (List ℚ × List (List ℚ))
  | [] => none
  | r :: rs =>
    match r with
    | [] => none
    | a :: _ =>
      if a ≠ 0 then some (r, rs)
      else
        match pivotSplit rs with
        | some (p, rest) => some (p, r :: rest)
        | none => none

/-- Eliminates the leading column of row `r` using pivot row `p`. -/
def elimRow (p r : List ℚ) : List ℚ :=
  match p, r with
  | a :: ps, b :: rs => List.zipWith (fun pc rc => rc - b / a * pc) ps rs
  | _, _ => []

/-- Solves an `n`-unknown linear system given as augmented rows, by
Gaussian elimination with back substitution; `none` exactly when the
system is singular. -/
def gaussSolve : ℕ → List (List ℚ) → Option (List ℚ)
  | 0, _ => some []
  | n + 1, rows =>
    match pivotSplit rows with
    | none => none
    | some (p, rest) =>
      match gaussSolve n (rest.map (elimRow p)) with
      | none => none
      | some xs =>
        match p with
        | a :: tl => some ((tl.getLast?.getD 0 - dotQ tl.dropLast xs) / a :: xs)
        | [] => none

/-- The four rows of a corner array as a list. -/
def quadList (q : Quad) : List Point := [q.p0, q.p1, q.p2, q.p3]

/-- Model of `cv2.getPerspectiveTransform`: builds the standard 8x8
linear system for the homography coefficients from the 4 point
correspondences and solves it with LU decomposition.  Per the OpenCV
documentation of `cv::solve` with `DECOMP_LU`, a singular system is not
an error: the solver reports failure, zero-fills the solution, and
`getPerspectiveTransform` still returns the resulting matrix with its
bottom-right entry set to 1 — it never raises. -/
def getPerspectiveTransform (src dst : Quad) : Mat3 :=
  let rows := (List.zip (quadList src) (quadList dst)).flatMap (fun pr =>
    [[pr.1.1, pr.1.2, 1, 0, 0, 0, -pr.1.1 * pr.2.1, -pr.1.2 * pr.2.1, pr.2.1],
     [0, 0, 0, pr.1.1, pr.1.2, 1, -pr.1.1 * pr.2.2, -pr.1.2 * pr.2.2, pr.2.2]])
  match gaussSolve 8 rows with
  | some [m0, m1, m2, m3, m4, m5, m6, m7] => ⟨(m0, m1, m2), (m3, m4, m5), (m6, m7, 1)⟩
  | _ => ⟨(0, 0, 0), (0, 0, 0), (0, 0, 1)⟩

/-- Determinant of a 3x3 matrix. -/
def det3 (M : Mat3) : ℚ :=
  M.r0.1 * (M.r1.2.1 * M.r2.2.2 - M.r1.2.2 * M.r2.2.1) -
  M.r0.2.1 * (M.r1.1 * M.r2.2.2 - M.r1.2.2 * M.r2.1) +
  M.r0.2.2 * (M.r1.1 * M.r2.2.1 - M.r1.2.1 * M.r2.1)

/-- Matrix inverse via the adjugate; per OpenCV's `cv::invert` with
`DECOMP_LU`, a singular matrix is not an error: the output is
zero-filled. -/
def inv3 (M : Mat3) : Mat3 :=
  let d := det3 M
  if d = 0 then ⟨(0, 0, 0), (0, 0, 0), (0, 0, 0)⟩
  else
    ⟨((M.r1.2.1 * M.r2.2.2 - M.r1.2.2 * M.r2.2.1) / d,
      (M.r0.2.2 * M.r2.2.1 - M.r0.2.1 * M.r2.2.2) / d,
      (M.r0.2.1 * M.r1.2.2 - M.r0.2.2 * M.r1.2.1) / d),
     ((M.r1.2.2 * M.r2.1 - M.r1.1 * M.r2.2.2) / d,
      (M.r0.1 * M.r2.2.2 - M.r0.2.2 * M.r2.1) / d,
      (M.r0.2.2 * M.r1.1 - M.r0.1 * M.r1.2.2) / d),
     ((M.r1.1 * M.r2.2.1 - M.r1.2.1 * M.r2.1) / d,
      (M.r0.2.1 * M.r2.1 - M.r0.1 * M.r2.2.1) / d,
      (M.r0.1 * M.r1.2.1 - M.r0.2.1 * M.r1.1) / d)⟩

/-- Rounding of a rational to the nearest integer. -/
def roundQ (x : ℚ) : ℤ := ⌊x + 1 / 2⌋

/-- Model of `cv2.warpPerspective`: an output canvas of the requested
size whose pixel at (x, y) samples the source photo through the inverse
homography, with the OpenCV conventions that a zero denominator maps to
coordinate 0 and that out-of-range samples are the constant border 0
(black); the default bilinear interpolation is modelled as
nearest-neighbour sampling, which no claim depends on.  It returns a
raster for every matrix, including singular ones — it never raises. -/
def warpPerspective (photo : Raster) (M : Mat3) (w h : ℕ) : Raster :=
  let Mi := inv3 M
  { width := w
    height := h
    px := fun x y =>
      let den := Mi.r2.1 * (x : ℚ) + Mi.r2.2.1 * (y : ℚ) + Mi.r2.2.2
      let wi := if den = 0 then 0 else 1 / den
      let sx := roundQ ((Mi.r0.1 * (x : ℚ) + Mi.r0.2.1 * (y : ℚ) + Mi.r0.2.2) * wi)
      let sy := roundQ ((Mi.r1.1 * (x : ℚ) + Mi.r1.2.1 * (y : ℚ) + Mi.r1.2.2) * wi)
      if 0 ≤ sx ∧ sx < (photo.width : ℤ) ∧ 0 ≤ sy ∧ sy < (photo.height : ℤ) then
        photo.px sx.toNat sy.toNat
      else (0, 0, 0) }

/-- The photo's own corner array `[[0,0],[w,0],[w,h],[0,h]]` built in
`warp_photo` from `h, w = self.photo.shape[:2]`. -/
def photoCorners (photo : Raster) : Quad :=
  ⟨(0, 0), ((photo.width : ℚ), 0), ((photo.width : ℚ), (photo.height : ℚ)), (0, (photo.height : ℚ))⟩

/-- `MockupGenerator.warp_photo`.  Attribute accesses on the `None`
results of failed decodes raise, in source order: `self.photo.shape`
first, then `cv2.getPerspectiveTransform` on an unset
`self.inset_corners`, then `self.frame.shape`.  With all three present
it unconditionally returns the warped raster — there is no degeneracy
check of any kind in the source. -/
def warpPhoto (st : GenState) (getPT : Quad → Quad → Mat3)
    (warpPersp : Raster → Mat3 → ℕ → ℕ → Raster) : Except PyErr Raster :=
  match st.photo with
  | none => .error (.attributeError "NoneType object has no attribute shape")
  | some photo =>
    match st.inset_corners with
    | none => .error (.cvError "getPerspectiveTransform: Assertion failed on dst")
    | some inset =>
      match st.frame with
      | none => .error (.attributeError "NoneType object has no attribute shape")
      | some frame =>
        .ok (warpPersp photo (getPT (photoCorners photo) inset) frame.width frame.height)

/-- `MockupGenerator.create_mockup`: runs `detect_frame`, `warp_photo`
and `combine_images` in order; a raised error propagates immediately and
aborts the run.  Only after all three stages succeed is the optional
`cv2.imwrite` performed, recorded here as the list of written paths; the
final raster is returned.  (The last match arm is unreachable: a
successful `detect_frame` always leaves `frame` decoded and
`inset_corners` set.) -/
def createMockup (st : GenState) (contoursOf : Raster → List Contour)
    (area : Contour → ℚ) (approxPolyDP : Contour → List Point)
    (getPT : Quad → Quad → Mat3) (warpPersp : Raster → Mat3 → ℕ → ℕ → Raster)
    (rasterize : Quad → ℕ → ℕ → Bool) (output_path : Option String) :
    Option PyErr × Option Raster × List String :=
  match detectFrame st contoursOf area approxPolyDP with
  | (some e, _) => (some e, none, [])
  | (none, st1) =>
    match warpPhoto st1 getPT warpPersp with
    | .error e => (some e, none, [])
    | .ok warped =>
      match st1.frame, st1.inset_corners with
      | some frame, some inset =>
        (none, some (combineImages frame (mkMask rasterize inset) warped), output_path.toList)
      | _, _ => (some (.attributeError "unreachable"), none, [])

/-! ### Concrete instances used by witnesses and counterexamples -/

/-- The axis-aligned frame corners of the spec's end-to-end scenario. -/
def frameQ : Quad := ⟨(50, 50), (350, 50), (350, 250), (50, 250)⟩

/-- A 4x5 solid-colour photo raster. -/
def photoR : Raster := ⟨4, 5, fun _ _ => (200, 0, 0)⟩

/-- A 400x300 solid-colour frame raster. -/
def frameR : Raster := ⟨400, 300, fun _ _ => (9, 9, 9)⟩

/-- A degenerate inset quadrilateral: its first three corners are
collinear (they lie on the line y = x). -/
def degQ : Quad := ⟨(0, 0), (1, 1), (2, 2), (0, 5)⟩

/-- A generator state whose inset corners are the degenerate `degQ`. -/
def stDeg : GenState :=
  { frame := some frameR
    photo := some photoR
    insetRatioVal := 1 / 20
    ordered_frame_corners := some degQ
    inset_corners := some degQ }

/-- Four distinct points whose `y - x` values tie between the first two
rows; sorting is not idempotent from here. -/
def q9 : Quad := ⟨(2, 1), (1, 0), (5, 5), (0, 5)⟩

/-- Four distinct points with a `y - x` tie for which the sorted output
repeats a vertex. -/
def q10 : Quad := ⟨(1, 0), (2, 1), (5, 5), (0, 5)⟩

/-- A contour extractor that finds nothing (a blank edge map). -/
def contoursNone : Raster → List Contour := fun _ => []

/-- A trivial contour-area function. -/
def areaZero : Contour → ℚ := fun _ => 0

/-- A polygon simplifier returning an empty polygon. -/
def approxEmpty : Contour → List Point := fun _ => []

/-- A rasterizer that fills nothing. -/
def rastNone : Quad → ℕ → ℕ → Bool := fun _ _ _ => false

/-- State after constructing the generator on a decoded blank frame and a
failed photo decode. -/
def stBlank : GenState := initGen (some frameR) none (1 / 20)

/-- State after constructing the generator when both decodes failed. -/
def stNone : GenState := initGen none none (1 / 20)

/-- All three channels of a pixel are in 8-bit range. -/
abbrev PxLe255 (p : Pixel) : Prop := p.1 ≤ 255 ∧ p.2.1 ≤ 255 ∧ p.2.2 ≤ 255

/-- A tiny concrete frame raster for the compositor witness. -/
def frameW : Raster := ⟨2, 2, fun _ _ => (10, 20, 30)⟩

/-- A tiny concrete warped raster for the compositor witness. -/
def warpedW : Raster := ⟨2, 2, fun _ _ => (40, 50, 60)⟩

/-- An all-zero mask raster. -/
def maskZero : Img := fun _ _ => (0, 0, 0)

/-- An all-255 mask raster. -/
def maskFull : Img := fun _ _ => (255, 255, 255)

/-! ### Helper lemmas -/

lemma argminPt_spec (v : Point → ℚ) (q : Quad) :
    QuadMem (argminPt v q) q ∧ LeAll v (argminPt v q) q := by
  unfold argminPt QuadMem LeAll
  split_ifs with h1 h2 h3
  · exact ⟨Or.inl rfl, le_refl _, h1.1, h1.2.1, h1.2.2⟩
  · push_neg at h1
    refine ⟨Or.inr (Or.inl rfl), ?_, le_refl _, h2.1, h2.2⟩
    by_contra hc
    push_neg at hc
    have := h1 hc.le (le_trans hc.le h2.1)
    linarith [h2.2]
  · push_neg at h1 h2
    refine ⟨Or.inr (Or.inr (Or.inl rfl)), ?_, ?_, le_refl _, h3⟩
    · by_contra hc
      push_neg at hc
      rcases le_or_lt (v q.p0) (v q.p1) with h01 | h01
      · have := h1 h01 hc.le
        linarith
      · have := h2 (by linarith)
        linarith
    · by_contra hc
      push_neg at hc
      have := h2 hc.le
      linarith
  · push_neg at h1 h2 h3
    refine ⟨Or.inr (Or.inr (Or.inr rfl)), ?_, ?_, h3.le, le_refl _⟩
    · by_contra hc
      push_neg at hc
      rcases le_or_lt (v q.p0) (v q.p1) with h01 | h01
      · rcases le_or_lt (v q.p0) (v q.p2) with h02 | h02
        · have := h1 h01 h02
          linarith
        · linarith
      · rcases le_or_lt (v q.p1) (v q.p2) with h12 | h12
        · have := h2 h12
          linarith
        · linarith
    · by_contra hc
      push_neg at hc
      rcases le_or_lt (v q.p1) (v q.p2) with h12 | h12
      · have := h2 h12
        linarith
      · linarith

lemma argmaxPt_spec (v : Point → ℚ) (q : Quad) :
    QuadMem (argmaxPt v q) q ∧ GeAll v (argmaxPt v q) q := by
  unfold argmaxPt QuadMem GeAll
  split_ifs with h1 h2 h3
  · exact ⟨Or.inl rfl, le_refl _, h1.1, h1.2.1, h1.2.2⟩
  · push_neg at h1
    refine ⟨Or.inr (Or.inl rfl), ?_, le_refl _, h2.1, h2.2⟩
    by_contra hc
    push_neg at hc
    have := h1 hc.le (le_trans h2.1 hc.le)
    linarith [h2.2]
  · push_neg at h1 h2
    refine ⟨Or.inr (Or.inr (Or.inl rfl)), ?_, ?_, le_refl _, h3⟩
    · by_contra hc
      push_neg at hc
      rcases le_or_lt (v q.p1) (v q.p0) with h01 | h01
      · have := h1 h01 hc.le
        linarith
      · have := h2 (by linarith)
        linarith
    · by_contra hc
      push_neg at hc
      have := h2 hc.le
      linarith
  · push_neg at h1 h2 h3
    refine ⟨Or.inr (Or.inr (Or.inr rfl)), ?_, ?_, h3.le, le_refl _⟩
    · by_contra hc
      push_neg at hc
      rcases le_or_lt (v q.p1) (v q.p0) with h01 | h01
      · rcases le_or_lt (v q.p2) (v q.p0) with h02 | h02
        · have := h1 h01 h02
          linarith
        · linarith
      · rcases le_or_lt (v q.p2) (v q.p1) with h12 | h12
        · have := h2 h12
          linarith
        · linarith
    · by_contra hc
      push_neg at hc
      rcases le_or_lt (v q.p2) (v q.p1) with h12 | h12
      · have := h2 h12
        linarith
      · linarith

lemma le_of_quadMem (v : Point → ℚ) (q : Quad) (x : Point)
    (hle : LeAll v x q) (y : Point) (hy : QuadMem y q) : v x ≤ v y := by
  rcases hy with h | h | h | h <;> subst h
  · exact hle.1
  · exact hle.2.1
  · exact hle.2.2.1
  · exact hle.2.2.2

lemma ge_of_quadMem (v : Point → ℚ) (q : Quad) (x : Point)
    (hge : GeAll v x q) (y : Point) (hy : QuadMem y q) : v y ≤ v x := by
  rcases hy with h | h | h | h <;> subst h
  · exact hge.1
  · exact hge.2.1
  · exact hge.2.2.1
  · exact hge.2.2.2

lemma eq_of_val_eq (v : Point → ℚ) (q : Quad) (hv : PairwiseNe v q)
    (x y : Point) (hx : QuadMem x q) (hy : QuadMem y q) (h : v x = v y) :
    x = y := by
  obtain ⟨a, b, c, d, e, f⟩ := hv
  rcases hx with hx | hx | hx | hx <;> rcases hy with hy | hy | hy | hy <;>
    subst hx <;> subst hy <;> tauto

set_option maxRecDepth 40000 in
lemma fin256_land255 : ∀ x : Fin 256, (x : ℕ) &&& 255 = (x : ℕ) := by decide

set_option maxRecDepth 40000 in
lemma fin256_land0 : ∀ x : Fin 256, (x : ℕ) &&& 0 = 0 := by decide

lemma land255_of_le {x : ℕ} (h : x ≤ 255) : x &&& 255 = x := by
  have hx := fin256_land255 ⟨x, by omega⟩
  simpa using hx

lemma land0_of_le {x : ℕ} (h : x ≤ 255) : x &&& 0 = 0 := by
  exact fin256_land0 ⟨x, by omega⟩

lemma combineC_mask0 {f w : ℕ} (hf : f ≤ 255) (hw : w ≤ 255) :
    combineC f w 0 = f := by
  unfold combineC satAdd not8
  rw [show (255 ^^^ 0 : ℕ) = 255 from rfl, land255_of_le hf, land0_of_le hw]
  omega

lemma combineC_mask255 {f w : ℕ} (hf : f ≤ 255) (hw : w ≤ 255) :
    combineC f w 255 = w := by
  unfold combineC satAdd not8
  rw [show (255 ^^^ 255 : ℕ) = 0 from rfl, land255_of_le hw, land0_of_le hf]
  omega

/-! ### Claim theorems -/

/-- Claim C3: `_sort_corners` returns the four points in the fixed order
(top-left, top-right, bottom-right, bottom-left): output position 0 is an
input point of minimum x+y, position 1 an input point of minimum y-x,
position 2 an input point of maximum x+y, and position 3 an input point of
maximum y-x. -/
theorem sort_corners_order (q : Quad) :
    (QuadMem (sortCorners q).p0 q ∧ LeAll ptSum (sortCorners q).p0 q) ∧
    (QuadMem (sortCorners q).p1 q ∧ LeAll ptDiff (sortCorners q).p1 q) ∧
    (QuadMem (sortCorners q).p2 q ∧ GeAll ptSum (sortCorners q).p2 q) ∧
    (QuadMem (sortCorners q).p3 q ∧ GeAll ptDiff (sortCorners q).p3 q) :=
  ⟨argminPt_spec ptSum q, argminPt_spec ptDiff q,
   argmaxPt_spec ptSum q, argmaxPt_spec ptDiff q⟩

/-- Claim C2: for every set of 4 ordered frame corners and every inset
ratio r, the computed inset corners equal `corners*(1-r) + centroid*r`
with the centroid the arithmetic mean of the 4 ordered corners (the
spec's formula, `specInsetCorners`), and for r = 0 the inset corners are
exactly the frame corners. -/
theorem inset_formula (q : Quad) (r : ℚ) :
    calculateInsetCorners q r = specInsetCorners q r ∧
    calculateInsetCorners q 0 = q := by
  constructor
  · unfold calculateInsetCorners specInsetCorners insetPoint centroid specCentroid ptScale ptAdd
    ext <;> dsimp <;> ring
  · unfold calculateInsetCorners insetPoint centroid
    ext <;> dsimp <;> ring

/-- Claim C4 counterexample: for the frame corners
(50,50),(350,50),(350,250),(50,250) and inset ratio 0.1 the code does NOT
compute the inset corners (80,80),(320,80),(320,220),(80,220) claimed by
the spec's end-to-end scenario. -/
theorem inset_scenario_counterexample :
    calculateInsetCorners (sortCorners frameQ) (1 / 10) ≠
      ⟨(80, 80), (320, 80), (320, 220), (80, 220)⟩ := by
  norm_num [calculateInsetCorners, insetPoint, centroid, sortCorners, argminPt, argmaxPt,
    ptSum, ptDiff, frameQ, Quad.mk.injEq, Prod.mk.injEq]

/-- Claim C4 (amended): for the frame corners
(50,50),(350,50),(350,250),(50,250) and inset ratio 0.1, the corner
ordering fixes the corners and the computed inset corners are exactly
(65,60),(335,60),(335,240),(65,240) — each corner is pulled 10% of the
way toward the centroid (200,150). -/
theorem inset_scenario :
    sortCorners frameQ = frameQ ∧
    calculateInsetCorners (sortCorners frameQ) (1 / 10) =
      ⟨(65, 60), (335, 60), (335, 240), (65, 240)⟩ := by
  norm_num [calculateInsetCorners, insetPoint, centroid, sortCorners, argminPt, argmaxPt,
    ptSum, ptDiff, frameQ, Quad.mk.injEq, Prod.mk.injEq]

/-- Claim C10: the sorter's output is not in general a permutation of its
input: the four distinct points (1,0),(2,1),(5,5),(0,5) tie on y-x
between the first two, the same input point (1,0) is selected for output
positions 0 (min sum) and 1 (min diff), and the (total) sorter returns
this degenerate quadrilateral with a repeated vertex, raising no error. -/
theorem sort_corners_not_permutation :
    (q10.p0 ≠ q10.p1 ∧ q10.p0 ≠ q10.p2 ∧ q10.p0 ≠ q10.p3 ∧
     q10.p1 ≠ q10.p2 ∧ q10.p1 ≠ q10.p3 ∧ q10.p2 ≠ q10.p3) ∧
    ptDiff q10.p0 = ptDiff q10.p1 ∧
    sortCorners q10 = ⟨(1, 0), (1, 0), (5, 5), (0, 5)⟩ ∧
    (sortCorners q10).p0 = (sortCorners q10).p1 := by
  norm_num [sortCorners, argminPt, argmaxPt, ptSum, ptDiff, q10, Quad.mk.injEq, Prod.mk.injEq]

/-- Claim C9 counterexample: corner ordering is not idempotent in
general.  For the four points (2,1),(1,0),(5,5),(0,5), whose y-x values
tie on the first two, one sort gives (1,0),(2,1),(5,5),(0,5) but sorting
that already-ordered output again gives (1,0),(1,0),(5,5),(0,5). -/
theorem sort_corners_not_idempotent :
    sortCorners q9 = ⟨(1, 0), (2, 1), (5, 5), (0, 5)⟩ ∧
    sortCorners (sortCorners q9) = ⟨(1, 0), (1, 0), (5, 5), (0, 5)⟩ ∧
    sortCorners (sortCorners q9) ≠ sortCorners q9 := by
  norm_num [sortCorners, argminPt, argmaxPt, ptSum, ptDiff, q9, Quad.mk.injEq, Prod.mk.injEq]

/-- Claim C9 (amended): `_sort_corners` is idempotent provided the four
coordinate sums x+y are pairwise distinct and the four differences y-x
are pairwise distinct (no ties; with ties numpy's first-occurrence
argmin/argmax can pick a different point the second time). -/
theorem sort_corners_idempotent (q : Quad)
    (hs : PairwiseNe ptSum q) (hd : PairwiseNe ptDiff q) :
    sortCorners (sortCorners q) = sortCorners q := by
  have m0 := argminPt_spec ptSum q
  have m1 := argminPt_spec ptDiff q
  have m2 := argmaxPt_spec ptSum q
  have m3 := argmaxPt_spec ptDiff q
  set s := sortCorners q with hsdef
  apply Quad.ext
  · show argminPt ptSum s = s.p0
    have hcond : ptSum s.p0 ≤ ptSum s.p1 ∧ ptSum s.p0 ≤ ptSum s.p2 ∧
        ptSum s.p0 ≤ ptSum s.p3 :=
      ⟨le_of_quadMem ptSum q _ m0.2 _ m1.1, le_of_quadMem ptSum q _ m0.2 _ m2.1,
       le_of_quadMem ptSum q _ m0.2 _ m3.1⟩
    unfold argminPt
    rw [if_pos hcond]
  · show argminPt ptDiff s = s.p1
    have h2 : ptDiff s.p1 ≤ ptDiff s.p2 ∧ ptDiff s.p1 ≤ ptDiff s.p3 :=
      ⟨le_of_quadMem ptDiff q _ m1.2 _ m2.1, le_of_quadMem ptDiff q _ m1.2 _ m3.1⟩
    unfold argminPt
    by_cases h1 : ptDiff s.p0 ≤ ptDiff s.p1 ∧ ptDiff s.p0 ≤ ptDiff s.p2 ∧
        ptDiff s.p0 ≤ ptDiff s.p3
    · rw [if_pos h1]
      exact eq_of_val_eq ptDiff q hd _ _ m0.1 m1.1
        (le_antisymm h1.1 (le_of_quadMem ptDiff q _ m1.2 _ m0.1))
    · rw [if_neg h1, if_pos h2]
  · show argmaxPt ptSum s = s.p2
    have h3 : ptSum s.p3 ≤ ptSum s.p2 := ge_of_quadMem ptSum q _ m2.2 _ m3.1
    unfold argmaxPt
    by_cases h1 : ptSum s.p1 ≤ ptSum s.p0 ∧ ptSum s.p2 ≤ ptSum s.p0 ∧
        ptSum s.p3 ≤ ptSum s.p0
    · rw [if_pos h1]
      exact eq_of_val_eq ptSum q hs _ _ m0.1 m2.1
        (le_antisymm (ge_of_quadMem ptSum q _ m2.2 _ m0.1) h1.2.1)
    · by_cases h2 : ptSum s.p2 ≤ ptSum s.p1 ∧ ptSum s.p3 ≤ ptSum s.p1
      · rw [if_neg h1, if_pos h2]
        exact eq_of_val_eq ptSum q hs _ _ m1.1 m2.1
          (le_antisymm (ge_of_quadMem ptSum q _ m2.2 _ m1.1) h2.1)
      · rw [if_neg h1, if_neg h2, if_pos h3]
  · show argmaxPt ptDiff s = s.p3
    unfold argmaxPt
    by_cases h1 : ptDiff s.p1 ≤ ptDiff s.p0 ∧ ptDiff s.p2 ≤ ptDiff s.p0 ∧
        ptDiff s.p3 ≤ ptDiff s.p0
    · rw [if_pos h1]
      exact eq_of_val_eq ptDiff q hd _ _ m0.1 m3.1
        (le_antisymm (ge_of_quadMem ptDiff q _ m3.2 _ m0.1) h1.2.2)
    · by_cases h2 : ptDiff s.p2 ≤ ptDiff s.p1 ∧ ptDiff s.p3 ≤ ptDiff s.p1
      · rw [if_neg h1, if_pos h2]
        exact eq_of_val_eq ptDiff q hd _ _ m1.1 m3.1
          (le_antisymm (ge_of_quadMem ptDiff q _ m3.2 _ m1.1) h2.2)
      · by_cases h3 : ptDiff s.p3 ≤ ptDiff s.p2
        · rw [if_neg h1, if_neg h2, if_pos h3]
          exact eq_of_val_eq ptDiff q hd _ _ m2.1 m3.1
            (le_antisymm (ge_of_quadMem ptDiff q _ m3.2 _ m2.1) h3)
        · rw [if_neg h1, if_neg h2, if_neg h3]

/-- Claim C9 witness: the axis-aligned scenario corners have pairwise
distinct sums and differences, and sorting them twice equals sorting
them once. -/
theorem sort_corners_idempotent_witness :
    PairwiseNe ptSum frameQ ∧ PairwiseNe ptDiff frameQ ∧
    sortCorners (sortCorners frameQ) = sortCorners frameQ :=
  ⟨by norm_num [PairwiseNe, ptSum, frameQ], by norm_num [PairwiseNe, ptDiff, frameQ],
   sort_corners_idempotent frameQ (by norm_num [PairwiseNe, ptSum, frameQ])
     (by norm_num [PairwiseNe, ptDiff, frameQ])⟩

/-- Claim C1: the compositor's per-pixel invariant.  For every frame
raster, warped raster and mask raster, at every pixel whose frame and
warped channels are in 8-bit range: where the mask is 0 the composite
equals the frame pixel, and where the mask is 255 it equals the warped
pixel. -/
theorem combine_images_mask_select (frame warped : Raster) (mask : Img) (x y : ℕ)
    (hf : PxLe255 (frame.px x y)) (hw : PxLe255 (warped.px x y)) :
    (mask x y = (0, 0, 0) → (combineImages frame mask warped).px x y = frame.px x y) ∧
    (mask x y = (255, 255, 255) → (combineImages frame mask warped).px x y = warped.px x y) := by
  obtain ⟨hf1, hf2, hf3⟩ := hf
  obtain ⟨hw1, hw2, hw3⟩ := hw
  constructor
  · intro hm
    show combinePx (frame.px x y) (warped.px x y) (mask x y) = frame.px x y
    rw [hm]
    unfold combinePx
    dsimp
    rw [combineC_mask0 hf1 hw1, combineC_mask0 hf2 hw2, combineC_mask0 hf3 hw3]
  · intro hm
    show combinePx (frame.px x y) (warped.px x y) (mask x y) = warped.px x y
    rw [hm]
    unfold combinePx
    dsimp
    rw [combineC_mask255 hf1 hw1, combineC_mask255 hf2 hw2, combineC_mask255 hf3 hw3]

/-- Claim C1 witness: at a concrete pixel the composite equals the frame
pixel under a zero mask and the warped pixel under a full mask. -/
theorem combine_images_mask_select_witness :
    (combineImages frameW maskZero warpedW).px 0 0 = (10, 20, 30) ∧
    (combineImages frameW maskFull warpedW).px 1 1 = (40, 50, 60) :=
  ⟨(combine_images_mask_select frameW warpedW maskZero 0 0 (by decide) (by decide)).1 rfl,
   (combine_images_mask_select frameW warpedW maskFull 1 1 (by decide) (by decide)).2 rfl⟩

/-- Claim C5: on a decoded frame, `detect_frame` fails exactly when the
edge map yields no contours or the simplified largest contour does not
have exactly 4 vertices; any such failure is one of the two
`ValueError`s (the spec's `FrameNotFound`), leaves the instance state —
in particular `ordered_frame_corners` and `inset_corners` — exactly as
it was, and makes `create_mockup` abort with that same error before any
downstream stage produces or writes anything. -/
theorem detect_frame_fail_iff (f : Raster) (photo : Option Raster) (r : ℚ)
    (contoursOf : Raster → List Contour) (area : Contour → ℚ)
    (approxPolyDP : Contour → List Point) :
    ((detectFrame (initGen (some f) photo r) contoursOf area approxPolyDP).1.isSome = true ↔
      contoursOf f = [] ∨ (approxPolyDP (pyMaxList area (contoursOf f))).length ≠ 4) ∧
    ((detectFrame (initGen (some f) photo r) contoursOf area approxPolyDP).1 = none ∨
      ∃ e, (e = PyErr.valueError "max() arg is an empty sequence" ∨
            e = PyErr.valueError "Frame detection failed: Expected a quadrilateral.") ∧
        detectFrame (initGen (some f) photo r) contoursOf area approxPolyDP =
          (some e, initGen (some f) photo r) ∧
        ∀ getPT warpPersp rasterize output_path,
          createMockup (initGen (some f) photo r) contoursOf area approxPolyDP
            getPT warpPersp rasterize output_path = (some e, none, [])) := by
  cases hC : contoursOf f with
  | nil =>
    constructor
    · simp [detectFrame, initGen, hC]
    · right
      refine ⟨_, Or.inl rfl, ?_, ?_⟩
      · simp [detectFrame, initGen, hC]
      · intro getPT warpPersp rasterize output_path
        simp [createMockup, detectFrame, initGen, hC]
  | cons c cs =>
    rcases hap : approxPolyDP (pyMax area c cs) with _ | ⟨a, _ | ⟨b, _ | ⟨c2, _ | ⟨d, _ | ⟨e5, tl⟩⟩⟩⟩⟩
    case nil =>
      constructor
      · simp [detectFrame, initGen, hC, hap, pyMaxList]
      · right
        refine ⟨_, Or.inr rfl, ?_, ?_⟩
        · simp [detectFrame, initGen, hC, hap]
        · intro getPT warpPersp rasterize output_path
          simp [createMockup, detectFrame, initGen, hC, hap]
    case cons.nil =>
      constructor
      · simp [detectFrame, initGen, hC, hap, pyMaxList]
      · right
        refine ⟨_, Or.inr rfl, ?_, ?_⟩
        · simp [detectFrame, initGen, hC, hap]
        · intro getPT warpPersp rasterize output_path
          simp [createMockup, detectFrame, initGen, hC, hap]
    case cons.cons.nil =>
      constructor
      · simp [detectFrame, initGen, hC, hap, pyMaxList]
      · right
        refine ⟨_, Or.inr rfl, ?_, ?_⟩
        · simp [detectFrame, initGen, hC, hap]
        · intro getPT warpPersp rasterize output_path
          simp [createMockup, detectFrame, initGen, hC, hap]
    case cons.cons.cons.nil =>
      constructor
      · simp [detectFrame, initGen, hC, hap, pyMaxList]
      · right
        refine ⟨_, Or.inr rfl, ?_, ?_⟩
        · simp [detectFrame, initGen, hC, hap]
        · intro getPT warpPersp rasterize output_path
          simp [createMockup, detectFrame, initGen, hC, hap]
    case cons.cons.cons.cons.nil =>
      constructor
      · simp [detectFrame, initGen, hC, hap, pyMaxList]
      · left
        simp [detectFrame, initGen, hC, hap]
    case cons.cons.cons.cons.cons =>
      constructor
      · simp [detectFrame, initGen, hC, hap, pyMaxList]
      · right
        refine ⟨_, Or.inr rfl, ?_, ?_⟩
        · simp [detectFrame, initGen, hC, hap]
        · intro getPT warpPersp rasterize output_path
          simp [createMockup, detectFrame, initGen, hC, hap]

/-- Claim C5 witness: a blank frame yielding no contours makes the
detector fail with the `max()` ValueError, leaves the state (and its
unset corner fields) untouched, and aborts the whole pipeline with that
error. -/
theorem detect_frame_fail_iff_witness :
    (detectFrame stBlank contoursNone areaZero approxEmpty).1.isSome = true ∧
    detectFrame stBlank contoursNone areaZero approxEmpty =
      (some (PyErr.valueError "max() arg is an empty sequence"), stBlank) ∧
    createMockup stBlank contoursNone areaZero approxEmpty getPerspectiveTransform
      warpPerspective rastNone (some "out.png") =
      (some (PyErr.valueError "max() arg is an empty sequence"), none, []) :=
  ⟨(detect_frame_fail_iff frameR none (1 / 20) contoursNone areaZero approxEmpty).1.mpr
      (Or.inl rfl),
   rfl, rfl⟩

/-- Claim C6 counterexample: the inset corners (0,0),(1,1),(2,2),(0,5)
are degenerate — the first three are collinear — and the homography the
modelled `cv2.getPerspectiveTransform` returns for them is singular
(zero determinant); yet `warp_photo` raises no error at all and returns
an output raster. -/
theorem warp_photo_no_singular_error :
    (degQ.p1.1 - degQ.p0.1) * (degQ.p2.2 - degQ.p0.2) =
      (degQ.p1.2 - degQ.p0.2) * (degQ.p2.1 - degQ.p0.1) ∧
    det3 (getPerspectiveTransform (photoCorners photoR) degQ) = 0 ∧
    ∃ res, warpPhoto stDeg getPerspectiveTransform warpPerspective = Except.ok res := by
  refine ⟨by norm_num [degQ], ?_, ⟨_, rfl⟩⟩
  norm_num [det3, getPerspectiveTransform, photoCorners, photoR, degQ, quadList, gaussSolve,
    pivotSplit, elimRow, dotQ, List.zipWith, List.flatMap]

/-- Claim C6 (amended): `warp_photo` contains no degeneracy check:
whenever the photo and frame are decoded and inset corners are set —
degenerate or not — it returns an output raster and never fails; no
SingularTransform error exists anywhere in the pipeline. -/
theorem warp_photo_total (st : GenState) (photo inset frame : _)
    (hp : st.photo = some photo) (hi : st.inset_corners = some inset)
    (hf : st.frame = some frame) (getPT : Quad → Quad → Mat3)
    (warpPersp : Raster → Mat3 → ℕ → ℕ → Raster) :
    warpPhoto st getPT warpPersp =
      Except.ok (warpPersp photo (getPT (photoCorners photo) inset)
        frame.width frame.height) := by
  unfold warpPhoto
  rw [hp, hi, hf]

/-- Claim C6 amended-theorem witness: instantiated at the degenerate
state, `warp_photo` returns the warped raster. -/
theorem warp_photo_total_witness :
    warpPhoto stDeg getPerspectiveTransform warpPerspective =
      Except.ok (warpPerspective photoR
        (getPerspectiveTransform (photoCorners photoR) degQ) frameR.width frameR.height) :=
  warp_photo_total stDeg photoR degQ frameR rfl rfl rfl getPerspectiveTransform warpPerspective

/-- Claim C7 counterexample: with both decodes failed the constructor
stores the `None` results and raises nothing — no InvalidInput check
exists — and the pipeline then fails inside the first stage, with the
cv2 error `cvtColor` raises on the `None` frame, not before any stage
runs. -/
theorem invalid_input_not_checked :
    initGen none none (1 / 20) =
      { frame := none, photo := none, insetRatioVal := 1 / 20,
        ordered_frame_corners := none, inset_corners := none } ∧
    createMockup stNone contoursNone areaZero approxEmpty getPerspectiveTransform
      warpPerspective rastNone (some "out.png") =
      (some (PyErr.cvError "cvtColor: Assertion failed: !_src.empty()"), none, []) :=
  ⟨rfl, rfl⟩

/-- Claim C7 (amended): the constructor stores whatever the decodes
produced and performs no validation, and a pipeline whose frame failed
to decode aborts inside frame detection with the untyped `cvtColor`
error — never with a typed InvalidInput before the stages run. -/
theorem invalid_input_behaviour (frame photo : Option Raster) (r : ℚ)
    (st : GenState) (hf : st.frame = none) (contoursOf : Raster → List Contour)
    (area : Contour → ℚ) (approxPolyDP : Contour → List Point)
    (getPT : Quad → Quad → Mat3) (warpPersp : Raster → Mat3 → ℕ → ℕ → Raster)
    (rasterize : Quad → ℕ → ℕ → Bool) (output_path : Option String) :
    initGen frame photo r = ⟨frame, photo, r, none, none⟩ ∧
    createMockup st contoursOf area approxPolyDP getPT warpPersp rasterize output_path =
      (some (PyErr.cvError "cvtColor: Assertion failed: !_src.empty()"), none, []) := by
  refine ⟨rfl, ?_⟩
  unfold createMockup detectFrame
  rw [hf]

/-- Claim C7 amended-theorem witness: instantiated with two failed
decodes and concrete collaborators. -/
theorem invalid_input_behaviour_witness :
    createMockup stNone contoursNone areaZero approxEmpty getPerspectiveTransform
      warpPerspective rastNone none =
      (some (PyErr.cvError "cvtColor: Assertion failed: !_src.empty()"), none, []) :=
  (invalid_input_behaviour none none (1 / 20) stNone rfl contoursNone areaZero approxEmpty
    getPerspectiveTransform warpPerspective rastNone none).2

/-- Claim C8: `create_mockup` is atomic with respect to output: either
some stage fails and the run yields no raster and writes nothing, or
every stage succeeds and it yields a raster, writing exactly the
requested output path (and nothing when no path was given). -/
theorem create_mockup_atomic (st : GenState) (contoursOf : Raster → List Contour)
    (area : Contour → ℚ) (approxPolyDP : Contour → List Point)
    (getPT : Quad → Quad → Mat3) (warpPersp : Raster → Mat3 → ℕ → ℕ → Raster)
    (rasterize : Quad → ℕ → ℕ → Bool) (output_path : Option String) :
    (∃ e, createMockup st contoursOf area approxPolyDP getPT warpPersp rasterize output_path =
        (some e, none, [])) ∨
    (∃ res, createMockup st contoursOf area approxPolyDP getPT warpPersp rasterize output_path =
        (none, some res, output_path.toList)) := by
  rcases hdet : detectFrame st contoursOf area approxPolyDP with ⟨oe, st1⟩
  cases oe with
  | some e => exact Or.inl ⟨e, by simp [createMockup, hdet]⟩
  | none =>
    cases hw : warpPhoto st1 getPT warpPersp with
    | error e => exact Or.inl ⟨e, by simp [createMockup, hdet, hw]⟩
    | ok warped =>
      cases hf : st1.frame with
      | none =>
        exact Or.inl ⟨PyErr.attributeError "unreachable",
          by simp [createMockup, hdet, hw, hf]⟩
      | some frame =>
        cases hi : st1.inset_corners with
        | none =>
          exact Or.inl ⟨PyErr.attributeError "unreachable",
            by simp [createMockup, hdet, hw, hf, hi]⟩
        | some inset =>
          exact Or.inr ⟨combineImages frame (mkMask rasterize inset) warped,
            by simp [createMockup, hdet, hw, hf, hi]⟩

end Mockup
